import Mathlib

set_option linter.unusedVariables false

/-!
Verification of the Fine Format generation pipeline.

Shallow embedding of the TypeScript sources:
- `src/src/services/geminiService.ts` (class `GeminiService`: theme
  extraction, Q&A pair generation, distractor generation; and the hook
  `useDatasetGeneration.generateDataset`, the pipeline orchestrator), and
- `src/src/App.tsx` (class `OpenRouterService.validateQAPairs`, the batched
  validator).

JavaScript strings are modeled as Lean `String` (a `substring(0, n)` prefix is
`List.take n` on the character list). JavaScript numbers that matter to the
properties below are constant rationals, so they are modeled as `ℚ`. The
network/LLM boundary is modeled as an oracle: every `fetch`+JSON-extraction
composite is a free parameter giving either a thrown error, a parsed
non-array, or a parsed array of loosely-typed records (records whose fields
may be absent, as in JS).
-/

namespace FineFormat

/-! ## JavaScript string primitives -/

/-- JS `a || b` for strings: `a` unless it is falsy (empty). -/
def jsOrStr (a b : String) : String := if a = "" then b else a

/-- JS `a || b` where both operands may be `undefined` (modeled `none`). -/
def jsOrOpt (a b : Option String) : Option String :=
  match a with
  | some s => if s = "" then b else some s
  | none => b

/-- JS `a || b` where `a` may be `undefined` and `b` is a string literal. -/
def jsOrD (a : Option String) (b : String) : String :=
  match a with
  | some s => if s = "" then b else s
  | none => b

/-- JS `s.substring(0, n)`: the prefix of at most `n` characters. -/
def jsSubstring (s : String) (n : Nat) : String := String.mk (s.data.take n)

/-- JS `Array.prototype.join(sep)` on an array of strings. -/
def joinSep (sep : String) : List String → String
  | [] => ""
  | [x] => x
  | x :: y :: xs => x ++ sep ++ joinSep sep (y :: xs)

/-! ## Content aggregation (GeminiService.identifyThemes / generateQAPairs)

Both call sites join the texts with a blank-line separator and then truncate
with `substring(0, MAX_TOTAL_CONTEXT_CHARS)` whenever the concatenation
exceeds the budget. -/

/-- The constant `GeminiService.MAX_TOTAL_CONTEXT_CHARS`. -/
def MAX_TOTAL_CONTEXT_CHARS : Nat := 12000

/-- The aggregation/budgeting step shared by `identifyThemes` and
`generateQAPairs`: join the unit texts with a blank-line separator and clip
the result to `maxChars` characters when it is longer. -/
def aggregate (texts : List String) (maxChars : Nat) : String :=
  let combined := joinSep "\n\n" texts
  if combined.length > maxChars then jsSubstring combined maxChars else combined

/-! ## Oracle outcomes for one LLM call -/

/-- Result of `makeRequest` + `extractJSON` (or, in the validator, regex match +
`JSON.parse`) for one call: the call threw, the parse produced a non-array
value, or it produced an array of records of type `α`. -/
inductive ParseOutcome (α : Type) where
  | err : ParseOutcome α
  | nonArray : ParseOutcome α
  | arr : List α → ParseOutcome α

/-! ## Data model -/

/-- One entry of the `allContent` array built in `generateDataset`. -/
structure ContentItem where
  isFile : Bool
  label : String
  content : String
deriving DecidableEq

/-- A record of the generation response array, as the duck-typed JS code reads
it: any of the four keys may be absent. -/
structure RawGenPair where
  user : Option String
  model : Option String
  question : Option String
  answer : Option String
deriving DecidableEq

/-- A pipeline Q&A pair (the shape produced by `generateQAPairs` and
`generateIncorrectAnswers`, later annotated in place by the validation step).
`confidence` is absent on distractor pairs, mirroring the JS object shapes. -/
structure PPair where
  question : Option String
  answer : Option String
  isCorrect : Bool
  confidence : Option ℚ
  source : String
  validationStatus : Option String := none
  validationConfidence : Option ℚ := none
deriving DecidableEq

/-! ## GeminiService.identifyThemes -/

/-- Model of `identifyThemes`: returns the parsed theme array; any thrown error yields
`[]` (the catch branch). A parsed non-array would be passed through untyped by
the TS code and is modeled as yielding no themes. -/
def identifyThemes (resp : ParseOutcome String) : List String :=
  match resp with
  | .arr ts => ts
  | _ => []

/-! ## GeminiService.generateQAPairs -/

/-- The normalization applied to each element of the parsed generation
response: `question: pair.user || pair.question`, `answer: pair.model ||
pair.answer`, `isCorrect: true`, `confidence: 0.9`, `source` depending on
whether source content was supplied. -/
def normalizeGenPair (content : List ContentItem) (p : RawGenPair) : PPair :=
  { question := jsOrOpt p.user p.question
  , answer := jsOrOpt p.model p.answer
  , isCorrect := true
  , confidence := some (9/10)
  , source := if content.length > 0 then "original" else "synthetic" }

/-- Model of `generateQAPairs`: on a parsed array, normalize every element; a thrown
error or a non-array parse yields `[]`. `themes` only feeds the prompt. -/
def generateQAPairs (content : List ContentItem) (themes : List String)
    (resp : ParseOutcome RawGenPair) : List PPair :=
  match resp with
  | .arr ps => ps.map (normalizeGenPair content)
  | _ => []

/-! ## OpenRouterService.validateQAPairs -/

/-- A record of the parsed judge response array, duck-typed: `isValid` is used
only if it is a boolean, `accuracy` only if a number, `reasoning` is
defaulted to the literal string Validated when falsy. -/
structure RawJudgment where
  isValid : Option Bool
  accuracy : Option ℚ
  reasoning : Option String
deriving DecidableEq

/-- Outcome of one sub-batch judge call: the request or `JSON.parse` threw,
the response contained no `[...]` substring, or an array was parsed. -/
inductive JudgeResp where
  | err : JudgeResp
  | noMatch : JudgeResp
  | parsed : List RawJudgment → JudgeResp

/-- The per-pair result record of the validator. -/
structure ValidationResult where
  pairId : String
  isValid : Bool
  confidence : ℚ
  reasoning : String
  factualAccuracy : ℚ
  relevanceScore : ℚ
deriving DecidableEq

/-- One entry of the success path: `results.map((result, idx) => ...)` with
`pairId = pair-(i+idx)`, duck-typed field reads, `relevanceScore: 0.9`. -/
def mkJudged (pos : Nat) (r : RawJudgment) : ValidationResult :=
  { pairId := "pair-" ++ Nat.repr pos
  , isValid := r.isValid.getD true
  , confidence := r.accuracy.getD (8/10)
  , reasoning := jsOrD r.reasoning "Validated"
  , factualAccuracy := r.accuracy.getD (8/10)
  , relevanceScore := 9/10 }

/-- One entry of the fallback path taken when a sub-batch call errors or its
response fails to parse: `isValid: true`, `confidence: 0.5`. -/
def mkFallback (pos : Nat) (reason : String) : ValidationResult :=
  { pairId := "pair-" ++ Nat.repr pos
  , isValid := true
  , confidence := 1/2
  , reasoning := reason
  , factualAccuracy := 1/2
  , relevanceScore := 1/2 }

/-- The success-path mapping over the parsed judge array, with
absolute positions starting at `i`. -/
def judgedFor : List RawJudgment → Nat → List ValidationResult
  | [], _ => []
  | r :: rs, i => mkJudged i r :: judgedFor rs (i + 1)

/-- The fallback-path mapping over the sub-batch, producing fallback
records with absolute positions starting at `i`. -/
def fallbackFor {α : Type} : List α → Nat → String → List ValidationResult
  | [], _, _ => []
  | _ :: bs, i, reason => mkFallback i reason :: fallbackFor bs (i + 1) reason

/-- The body of one loop iteration of `validateQAPairs`, given the sub-batch,
its judge outcome, and the loop counter `i` (the start index of the sub-batch).
Note that on the success path the code maps over the PARSED array, not over
the sub-batch. -/
def handleBatch {α : Type} (batch : List α) (resp : JudgeResp) (i : Nat) :
    List ValidationResult :=
  match resp with
  | .parsed rs => judgedFor rs i
  | .noMatch => fallbackFor batch i "Validation parsing failed"
  | .err => fallbackFor batch i "Validation error"

/-- The slicing `pairs.slice(i, i + 5)` of the `for (i += batchSize)` loop:
the list cut into chunks of 5 with a shorter final chunk. -/
def chunk5 {α : Type} : List α → List (List α)
  | [] => []
  | a :: b :: c :: d :: e :: rest => [a, b, c, d, e] :: chunk5 rest
  | xs => [xs]

/-- The validator loop: one judge call per sub-batch (call number `k`,
loop counter `i`), results appended in input order. -/
def runBatches {α : Type} (resp : Nat → JudgeResp) :
    List (List α) → Nat → Nat → List ValidationResult
  | [], _, _ => []
  | b :: bs, i, k => handleBatch b (resp k) i ++ runBatches resp bs (i + 5) (k + 1)

/-- Model of `OpenRouterService.validateQAPairs`, with the per-call network/parse
outcomes supplied by the oracle `resp` (indexed by call order). -/
def validateQAPairs {α : Type} (pairs : List α) (resp : Nat → JudgeResp) :
    List ValidationResult :=
  runBatches resp (chunk5 pairs) 0 0

/-! ## GeminiService.generateIncorrectAnswers -/

/-- A record of the parsed distractor response array. -/
structure RawDistractor where
  original_question : Option String
  incorrect_answer : Option String
deriving DecidableEq

/-- The mapping applied to each parsed distractor record: the output question
is the `original_question` field of the record. -/
def mkDistractor (r : RawDistractor) : PPair :=
  { question := r.original_question
  , answer := r.incorrect_answer
  , isCorrect := false
  , confidence := none
  , source := "generated_distractor" }

/-- Observable behavior of one `generateIncorrectAnswers` invocation:
whether an LLM call was made, which pairs were put in the prompt, and the
returned distractor pairs. -/
structure DistractorCall where
  called : Bool
  promptPairs : List PPair
  pairs : List PPair
deriving DecidableEq

/-- Model of `generateIncorrectAnswers`: empty input short-circuits to `[]` with no
call; otherwise the prompt holds `correctPairs.slice(0, 5)` and a parsed
array maps through `mkDistractor`, while an error or non-array parse yields
`[]` (non-fatal). -/
def generateIncorrectAnswers (correctPairs : List PPair)
    (resp : ParseOutcome RawDistractor) : DistractorCall :=
  if correctPairs.length = 0 then
    { called := false, promptPairs := [], pairs := [] }
  else
    let pairsToProcess := correctPairs.take 5
    match resp with
    | .arr rs =>
      { called := true, promptPairs := pairsToProcess, pairs := rs.map mkDistractor }
    | _ => { called := true, promptPairs := pairsToProcess, pairs := [] }

/-! ## useDatasetGeneration.generateDataset (pipeline orchestrator) -/

/-- One entry of the `files` argument. -/
structure FileData where
  name : String
  cleanedText : Option String
  rawContent : String
deriving DecidableEq

/-- One entry of the `urls` argument. -/
structure UrlData where
  url : String
  rawContent : String
deriving DecidableEq

/-- A pair of the final dataset (`finalData.qaPairs` element shape). -/
structure OutPair where
  user : Option String
  model : Option String
  isCorrect : Bool
  source : String
  validationStatus : Option String
  validationConfidence : Option ℚ
deriving DecidableEq

/-- The final dataset artifact (`ProcessedData`). -/
structure ProcessedData where
  qaPairs : List OutPair
  combinedCleanedText : String
  sourceFileCount : Nat
  sourceUrlCount : Nat
  identifiedThemes : List String
  correctAnswerCount : Nat
  incorrectAnswerCount : Nat
deriving DecidableEq

/-- Observable outcome of one `generateDataset` run: the dataset passed to
`setProcessedData` (or `none` if it was never called), the error passed to
`setError` (or `none`), the sequence of values passed to `setProgress`, and
whether the content-grounded generation call was made. -/
structure RunResult where
  processedData : Option ProcessedData
  error : Option String
  progressTrace : List Nat
  groundedCalled : Bool
deriving DecidableEq

/-- The oracle for one run: outcomes of the theme call, the grounded and
synthetic generation calls, the per-sub-batch judge calls and the
distractor call. -/
structure Oracle where
  themesResp : ParseOutcome String
  groundedResp : ParseOutcome RawGenPair
  syntheticResp : ParseOutcome RawGenPair
  judgeResp : Nat → JudgeResp
  distractorResp : ParseOutcome RawDistractor

/-- The non-oracle arguments of `generateDataset`. -/
structure RunInput where
  files : List FileData
  urls : List UrlData
  fineTuningGoal : String
  gapFilling : Bool
  appendSources : Bool

/-- The file text selection `f.cleanedText || f.rawContent`. -/
def fileContent (f : FileData) : String := jsOrD f.cleanedText f.rawContent

/-- The `allContent` array: mapped files followed by mapped urls. -/
def allContentOf (inp : RunInput) : List ContentItem :=
  inp.files.map (fun f => { isFile := true, label := f.name, content := fileContent f }) ++
  inp.urls.map (fun u => { isFile := false, label := u.url, content := u.rawContent })

/-- The themes obtained in step 1. -/
def themesOf (o : Oracle) : List String := identifyThemes o.themesResp

/-- Step 3: grounded pairs, generated only when `allContent.length > 0`. -/
def groundedPairsOf (inp : RunInput) (o : Oracle) : List PPair :=
  if (allContentOf inp).length > 0 then
    generateQAPairs (allContentOf inp) (themesOf o) o.groundedResp
  else []

/-- Step 4: synthetic pairs, generated from an empty content list. -/
def syntheticPairsOf (o : Oracle) : List PPair :=
  generateQAPairs [] (themesOf o) o.syntheticResp

/-- The concatenation `allPairs = [...qaPairs, ...syntheticPairs]`. -/
def allPairsOf (inp : RunInput) (o : Oracle) : List PPair :=
  groundedPairsOf inp o ++ syntheticPairsOf o

/-- The in-place mutation applied to one pair when a validation result exists
at its index. -/
def annotateOne (vr : ValidationResult) (p : PPair) : PPair :=
  { p with
    validationStatus := some (if vr.isValid then "validated" else "rejected")
  , validationConfidence := some vr.confidence }

/-- The forEach mutation loop over `allPairs` indexed into `validationResults`:
pairs whose index has a validation result are annotated, the rest are kept
unchanged; no pair is added or removed. -/
def annotatePairs (vrs : List ValidationResult) : List PPair → Nat → List PPair
  | [], _ => []
  | p :: ps, i =>
    (match vrs[i]? with
     | some vr => annotateOne vr p
     | none => p) :: annotatePairs vrs ps (i + 1)

/-- The pair list after step 5 (validation annotation). -/
def validatedPairsOf (inp : RunInput) (o : Oracle) : List PPair :=
  annotatePairs (validateQAPairs (allPairsOf inp o) o.judgeResp) (allPairsOf inp o) 0

/-- Step 6: the distractor invocation, fed the (annotated) `allPairs`. -/
def distractorCallOf (inp : RunInput) (o : Oracle) : DistractorCall :=
  generateIncorrectAnswers (validatedPairsOf inp o) o.distractorResp

/-- The step-7 mapping into the final dataset shape: `user: pair.question`,
`model: pair.answer`, and `source` falling back to the literal original. -/
def finalizePair (p : PPair) : OutPair :=
  { user := p.question
  , model := p.answer
  , isCorrect := p.isCorrect
  , source := jsOrStr p.source "original"
  , validationStatus := p.validationStatus
  , validationConfidence := p.validationConfidence }

/-- The message of the zero-yield fatal error thrown in step 4. -/
def zeroYieldMessage : String :=
  "Failed to generate any Q&A pairs. Please check your input files or try again."

/-- Model of `useDatasetGeneration.generateDataset`. The only throw reaching the outer
catch is the zero-yield error (every service call swallows its own failures),
so the run either stops there — error set, no dataset stored, progress halted
at 60 — or completes the schedule and stores the compiled dataset. -/
def generateDataset (inp : RunInput) (o : Oracle) : RunResult :=
  if (allPairsOf inp o).length = 0 then
    { processedData := none
    , error := some zeroYieldMessage
    , progressTrace := [0, 10, 25, 40, 60]
    , groundedCalled := !(allContentOf inp).isEmpty }
  else
    { processedData := some
        { qaPairs := (validatedPairsOf inp o ++ (distractorCallOf inp o).pairs).map finalizePair
        , combinedCleanedText := joinSep "\n\n" ((allContentOf inp).map ContentItem.content)
        , sourceFileCount := inp.files.length
        , sourceUrlCount := inp.urls.length
        , identifiedThemes := themesOf o
        , correctAnswerCount := (validatedPairsOf inp o).length
        , incorrectAnswerCount := (distractorCallOf inp o).pairs.length }
    , error := none
    , progressTrace := [0, 10, 25, 40, 60, 75, 85, 95, 100]
    , groundedCalled := !(allContentOf inp).isEmpty }

/-- The state cleared by `useDatasetGeneration.resetGeneration`. -/
structure HookState where
  processedData : Option ProcessedData
  currentStep : String
  progress : Nat
  error : Option String
  isProcessing : Bool
deriving DecidableEq

/-- Model of `resetGeneration`: clears everything and sets progress back to 0. -/
def resetGeneration : HookState :=
  { processedData := none, currentStep := "", progress := 0
  , error := none, isProcessing := false }

/-! ## Concrete sample inputs used by witnesses and counterexamples -/

/-- A typical generated pair. -/
def sampleCorrectPair : PPair :=
  { question := some "What is 2+2?", answer := some "4", isCorrect := true
  , confidence := some (9/10), source := "original" }

/-- A fully absent-field pair object, as JS permits. -/
def blankRawGenPair : RawGenPair :=
  { user := none, model := none, question := none, answer := none }

/-- A default used only to read elements out of lists in closed statements. -/
def emptyPPair : PPair :=
  { question := none, answer := none, isCorrect := false
  , confidence := none, source := "" }

/-- A default dataset used only to read `Option ProcessedData` in closed
statements. -/
def emptyProcessedData : ProcessedData :=
  { qaPairs := [], combinedCleanedText := "", sourceFileCount := 0
  , sourceUrlCount := 0, identifiedThemes := [], correctAnswerCount := 0
  , incorrectAnswerCount := 0 }

/-- A 20000-character single-unit corpus. -/
def demoTexts : List String := [String.mk (List.replicate 20000 'a')]

/-- Five concrete judge records for the first validator sub-batch. -/
def sampleJudgments5 : List RawJudgment :=
  [ { isValid := some true, accuracy := some (95/100), reasoning := some "good" }
  , { isValid := some false, accuracy := some (2/10), reasoning := some "bad" }
  , { isValid := some true, accuracy := none, reasoning := none }
  , { isValid := none, accuracy := some (7/10), reasoning := some "ok" }
  , { isValid := some true, accuracy := some 1, reasoning := some "fine" } ]

/-- Two concrete judge records. -/
def sampleJudgments2 : List RawJudgment :=
  [ { isValid := some true, accuracy := some (9/10), reasoning := some "good" }
  , { isValid := some false, accuracy := some (1/10), reasoning := some "bad" } ]

/-- Judge oracle: first sub-batch parses to the five records above, every
later sub-batch call errors. -/
def judgeRespFirstThenErr : Nat → JudgeResp :=
  fun k => if k = 0 then .parsed sampleJudgments5 else .err

/-- Judge oracle for a two-pair batch: the single call parses to two records. -/
def judgeRespTwo : Nat → JudgeResp :=
  fun k => if k = 0 then .parsed sampleJudgments2 else .err

/-- A run input with no files and no urls. -/
def emptyRunInput : RunInput :=
  { files := [], urls := [], fineTuningGoal := "topic"
  , gapFilling := false, appendSources := false }

/-- An oracle on which every LLM call fails. -/
def oracleAllErr : Oracle :=
  { themesResp := .err, groundedResp := .err, syntheticResp := .err
  , judgeResp := fun _ => .err, distractorResp := .err }

/-- A raw generation record keyed provider-style (`user`/`model`). -/
def rawQA : RawGenPair :=
  { user := some "Q1", model := some "A1", question := none, answer := none }

/-- An oracle whose synthetic generation call yields one pair and whose other
calls fail. -/
def oracleSynOne : Oracle :=
  { themesResp := .err, groundedResp := .err, syntheticResp := .arr [rawQA]
  , judgeResp := fun _ => .err, distractorResp := .err }

/-- The dataset produced by the sample run with `oracleSynOne`. -/
def sampleDataset : ProcessedData :=
  ((generateDataset emptyRunInput oracleSynOne).processedData).getD emptyProcessedData

/-! ## Helper lemmas -/

theorem length_mk (l : List Char) : (String.mk l).length = l.length := rfl

theorem chunk5_nil {α : Type} : chunk5 ([] : List α) = [] := rfl

theorem chunk5_cons5 {α : Type} (a b c d e : α) (rest : List α) :
    chunk5 (a :: b :: c :: d :: e :: rest) = [a, b, c, d, e] :: chunk5 rest := rfl

theorem chunk5_short {α : Type} (xs : List α) (h0 : xs ≠ []) (h5 : xs.length ≤ 5) :
    chunk5 xs = [xs] := by
  match xs with
  | [] => exact absurd rfl h0
  | [a] => rfl
  | [a, b] => rfl
  | [a, b, c] => rfl
  | [a, b, c, d] => rfl
  | a :: b :: c :: d :: e :: rest =>
    have : rest = [] := by
      simp only [List.length_cons] at h5
      exact List.length_eq_zero.mp (by omega)
    subst this
    rfl

theorem chunk5_append5 {α : Type} (a b : List α) (ha : a.length = 5) :
    chunk5 (a ++ b) = a :: chunk5 b := by
  match a with
  | [x1, x2, x3, x4, x5] => rfl
  | [] => simp at ha
  | [x1] => simp at ha
  | [x1, x2] => simp at ha
  | [x1, x2, x3] => simp at ha
  | [x1, x2, x3, x4] => simp at ha
  | x1 :: x2 :: x3 :: x4 :: x5 :: x6 :: rest => simp at ha

theorem chunk5_flatten {α : Type} : ∀ (xs : List α), (chunk5 xs).flatten = xs
  | [] => rfl
  | [a] => rfl
  | [a, b] => rfl
  | [a, b, c] => rfl
  | [a, b, c, d] => rfl
  | a :: b :: c :: d :: e :: rest => by
    rw [chunk5_cons5, List.flatten_cons, chunk5_flatten rest]
    rfl

theorem chunk5_inner_five {α : Type} :
    ∀ (xs : List α) (t : Nat), t + 1 < (chunk5 xs).length →
      ((chunk5 xs).getD t []).length = 5
  | [], t, h => by simp [chunk5_nil] at h
  | [a], t, h => by simp [chunk5] at h
  | [a, b], t, h => by simp [chunk5] at h
  | [a, b, c], t, h => by simp [chunk5] at h
  | [a, b, c, d], t, h => by simp [chunk5] at h
  | a :: b :: c :: d :: e :: rest, t, h => by
    rw [chunk5_cons5] at h ⊢
    match t with
    | 0 => rfl
    | t + 1 =>
      simp only [List.length_cons] at h
      exact chunk5_inner_five rest t (by omega)

theorem judgedFor_length (rs : List RawJudgment) (i : Nat) :
    (judgedFor rs i).length = rs.length := by
  induction rs generalizing i with
  | nil => rfl
  | cons r rs ih => simp [judgedFor, ih]

theorem fallbackFor_length {α : Type} (b : List α) (i : Nat) (reason : String) :
    (fallbackFor b i reason).length = b.length := by
  induction b generalizing i with
  | nil => rfl
  | cons x bs ih => simp [fallbackFor, ih]

theorem judgedFor_getElem (rs : List RawJudgment) (i j : Nat) :
    (judgedFor rs i)[j]? = rs[j]?.map (fun r => mkJudged (i + j) r) := by
  induction rs generalizing i j with
  | nil => simp [judgedFor]
  | cons r rs ih =>
    match j with
    | 0 => simp [judgedFor]
    | j + 1 =>
      simp only [judgedFor, List.getElem?_cons_succ]
      rw [ih (i + 1) j]
      have : i + 1 + j = i + (j + 1) := by omega
      rw [this]

theorem fallbackFor_getElem {α : Type} (b : List α) (i j : Nat) (reason : String) :
    (fallbackFor b i reason)[j]? = b[j]?.map (fun _ => mkFallback (i + j) reason) := by
  induction b generalizing i j with
  | nil => simp [fallbackFor]
  | cons x bs ih =>
    match j with
    | 0 => simp [fallbackFor]
    | j + 1 =>
      simp only [fallbackFor, List.getElem?_cons_succ]
      rw [ih (i + 1) j]
      have : i + 1 + j = i + (j + 1) := by omega
      rw [this]

theorem handleBatch_length {α : Type} (b : List α) (r : JudgeResp) (i : Nat)
    (h : ∀ rs, r = .parsed rs → rs.length = b.length) :
    (handleBatch b r i).length = b.length := by
  match r with
  | .parsed rs => simpa [handleBatch, judgedFor_length] using h rs rfl
  | .noMatch => simp [handleBatch, fallbackFor_length]
  | .err => simp [handleBatch, fallbackFor_length]

theorem annotatePairs_length (vrs : List ValidationResult) :
    ∀ (ps : List PPair) (i : Nat), (annotatePairs vrs ps i).length = ps.length
  | [], _ => rfl
  | p :: ps, i => by simp [annotatePairs, annotatePairs_length vrs ps (i + 1)]

theorem runBatches_length {α : Type} (resp : Nat → JudgeResp) :
    ∀ (bs : List (List α)) (i k : Nat),
      (∀ t rs, resp (k + t) = .parsed rs → rs.length = (bs.getD t []).length) →
      (runBatches resp bs i k).length = bs.flatten.length
  | [], _, _, _ => rfl
  | b :: bs, i, k, H => by
    rw [runBatches, List.length_append, List.flatten_cons, List.length_append]
    have h1 : (handleBatch b (resp k) i).length = b.length := by
      refine handleBatch_length b (resp k) i (fun rs hr => ?_)
      have := H 0 rs (by simpa using hr)
      simpa using this
    have h2 := runBatches_length resp bs (i + 5) (k + 1) (fun t rs hr => by
      have := H (t + 1) rs (by
        have hkt : k + 1 + t = k + (t + 1) := by omega
        rw [← hkt]; exact hr)
      simpa using this)
    omega

theorem runBatches_getElem {α : Type} (resp : Nat → JudgeResp) :
    ∀ (bs : List (List α)) (i k j : Nat),
      (∀ t rs, resp (k + t) = .parsed rs → rs.length = (bs.getD t []).length) →
      (∀ t, t + 1 < bs.length → (bs.getD t []).length = 5) →
      j < bs.flatten.length →
      ∃ vr, (runBatches resp bs i k)[j]? = some vr ∧
        vr.pairId = "pair-" ++ Nat.repr (i + j)
  | [], i, k, j, _, _, hj => by simp at hj
  | b :: bs, i, k, j, H, H5, hj => by
    have hb : (handleBatch b (resp k) i).length = b.length := by
      refine handleBatch_length b (resp k) i (fun rs hr => ?_)
      have := H 0 rs (by simpa using hr)
      simpa using this
    rw [List.flatten_cons, List.length_append] at hj
    by_cases hjb : j < b.length
    · rw [runBatches, List.getElem?_append_left (by omega : j < (handleBatch b (resp k) i).length)]
      match hr : resp k with
      | .parsed rs =>
        have hrs : rs.length = b.length := by
          have := H 0 rs (by simpa using hr)
          simpa using this
        refine ⟨mkJudged (i + j) rs[j], ?_, rfl⟩
        rw [handleBatch, judgedFor_getElem, List.getElem?_eq_getElem (by omega : j < rs.length)]
        rfl
      | .noMatch =>
        refine ⟨mkFallback (i + j) "Validation parsing failed", ?_, rfl⟩
        rw [handleBatch, fallbackFor_getElem, List.getElem?_eq_getElem hjb]
        rfl
      | .err =>
        refine ⟨mkFallback (i + j) "Validation error", ?_, rfl⟩
        rw [handleBatch, fallbackFor_getElem, List.getElem?_eq_getElem hjb]
        rfl
    · have hbsne : bs ≠ [] := by
        intro hnil
        subst hnil
        simp at hj
        omega
      have hb5 : b.length = 5 := by
        have := H5 0 (by
          simp only [List.length_cons]
          have : 0 < bs.length := List.length_pos.mpr hbsne
          omega)
        simpa using this
      rw [runBatches, List.getElem?_append_right (by omega : (handleBatch b (resp k) i).length ≤ j)]
      have H' : ∀ t rs, resp (k + 1 + t) = .parsed rs → rs.length = (bs.getD t []).length := by
        intro t rs hr
        have := H (t + 1) rs (by
          have hkt : k + 1 + t = k + (t + 1) := by omega
          rw [← hkt]; exact hr)
        simpa using this
      have H5' : ∀ t, t + 1 < bs.length → (bs.getD t []).length = 5 := by
        intro t ht
        have := H5 (t + 1) (by simp only [List.length_cons]; omega)
        simpa using this
      obtain ⟨vr, hv, hid⟩ := runBatches_getElem resp bs (i + 5) (k + 1) (j - b.length) H' H5'
        (by omega)
      refine ⟨vr, ?_, ?_⟩
      · rw [hb]; exact hv
      · rw [hid]
        congr 1
        congr 1
        omega

theorem mem_generateQAPairs_source (content : List ContentItem) (themes : List String)
    (resp : ParseOutcome RawGenPair) (p : PPair)
    (hp : p ∈ generateQAPairs content themes resp) :
    p.source = if content.length > 0 then "original" else "synthetic" := by
  match resp with
  | .err => simp [generateQAPairs] at hp
  | .nonArray => simp [generateQAPairs] at hp
  | .arr ps =>
    simp only [generateQAPairs, List.mem_map] at hp
    obtain ⟨r, _, rfl⟩ := hp
    rfl

theorem mem_allPairsOf_source (inp : RunInput) (o : Oracle) (p : PPair)
    (hp : p ∈ allPairsOf inp o) :
    p.source = "original" ∨ p.source = "synthetic" := by
  rcases List.mem_append.mp hp with hg | hs
  · rw [groundedPairsOf] at hg
    split at hg
    · rename_i hpos
      have := mem_generateQAPairs_source _ _ _ _ hg
      rw [if_pos hpos] at this
      exact Or.inl this
    · simp at hg
  · have := mem_generateQAPairs_source _ _ _ _ hs
    simp only [List.length_nil, gt_iff_lt, lt_self_iff_false, if_false] at this
    exact Or.inr this

theorem mem_annotatePairs_source (vrs : List ValidationResult) :
    ∀ (ps : List PPair) (i : Nat) (p : PPair), p ∈ annotatePairs vrs ps i →
      ∃ q ∈ ps, p.source = q.source ∧ p.question = q.question ∧ p.answer = q.answer
  | [], _, p, hp => by simp [annotatePairs] at hp
  | q :: ps, i, p, hp => by
    rw [annotatePairs, List.mem_cons] at hp
    rcases hp with hp | hp
    · refine ⟨q, List.mem_cons_self q ps, ?_⟩
      subst hp
      match vrs[i]? with
      | some vr => exact ⟨rfl, rfl, rfl⟩
      | none => exact ⟨rfl, rfl, rfl⟩
    · obtain ⟨q2, hq2, hsrc⟩ := mem_annotatePairs_source vrs ps (i + 1) p hp
      exact ⟨q2, List.mem_cons_of_mem q hq2, hsrc⟩

theorem mem_distractorPairs (cps : List PPair) (resp : ParseOutcome RawDistractor)
    (p : PPair) (hp : p ∈ (generateIncorrectAnswers cps resp).pairs) :
    p.source = "generated_distractor" ∧ p.isCorrect = false := by
  rw [generateIncorrectAnswers] at hp
  split at hp
  · simp at hp
  · match resp with
    | .err => simp at hp
    | .nonArray => simp at hp
    | .arr rs =>
      simp only [List.mem_map] at hp
      obtain ⟨r, _, rfl⟩ := hp
      exact ⟨rfl, rfl⟩

theorem finalizePair_source_ne (p : PPair) : (finalizePair p).source ≠ "" := by
  show jsOrStr p.source "original" ≠ ""
  rw [jsOrStr]
  split
  · decide
  · assumption

theorem finalizePair_source_of_ne (p : PPair) (h : p.source ≠ "") :
    (finalizePair p).source = p.source := by
  show jsOrStr p.source "original" = p.source
  rw [jsOrStr, if_neg h]

theorem generateDataset_some (inp : RunInput) (o : Oracle) (d : ProcessedData)
    (hd : (generateDataset inp o).processedData = some d) :
    d.qaPairs = (validatedPairsOf inp o).map finalizePair ++
        ((distractorCallOf inp o).pairs).map finalizePair ∧
    d.correctAnswerCount = (validatedPairsOf inp o).length ∧
    d.incorrectAnswerCount = ((distractorCallOf inp o).pairs).length := by
  rw [generateDataset] at hd
  split at hd
  · simp at hd
  · simp only [Option.some.injEq] at hd
    subst hd
    exact ⟨List.map_append finalizePair _ _, rfl, rfl⟩

/-! ## Claims -/

/-- Claim C2: if both the grounded and the synthetic generation stage return
zero pairs, the run fails: no dataset value is produced (`setProcessedData`
is never called, so the previously stored dataset is untouched) and the
zero-yield error is surfaced. -/
theorem c2_zero_yield_fails (inp : RunInput) (o : Oracle)
    (hg : groundedPairsOf inp o = []) (hs : syntheticPairsOf o = []) :
    (generateDataset inp o).processedData = none ∧
    (generateDataset inp o).error = some zeroYieldMessage := by
  have hall : allPairsOf inp o = [] := by rw [allPairsOf, hg, hs]; rfl
  have hrun : generateDataset inp o =
      { processedData := none, error := some zeroYieldMessage
      , progressTrace := [0, 10, 25, 40, 60]
      , groundedCalled := !(allContentOf inp).isEmpty } := by
    rw [generateDataset, if_pos (by rw [hall]; rfl)]
  rw [hrun]
  exact ⟨rfl, rfl⟩

/-- Witness for C2: with no content and an oracle whose every call fails,
both stages yield zero pairs and the run fails with the zero-yield error. -/
theorem c2_zero_yield_fails_witness :
    (generateDataset emptyRunInput oracleAllErr).processedData = none ∧
    (generateDataset emptyRunInput oracleAllErr).error = some zeroYieldMessage :=
  c2_zero_yield_fails emptyRunInput oracleAllErr (by decide) (by decide)

/-- Claim C3: the aggregated corpus never exceeds the character budget, and
when the naive separator-joined concatenation is 20000 characters and the
budget is 12000, the aggregate equals exactly its first 12000 characters. -/
theorem c3_aggregate_within_budget (texts : List String) (maxChars : Nat) :
    (aggregate texts maxChars).length ≤ maxChars ∧
    ((joinSep "\n\n" texts).length = 20000 → maxChars = 12000 →
      aggregate texts maxChars = jsSubstring (joinSep "\n\n" texts) 12000 ∧
      (aggregate texts maxChars).length = 12000) := by
  constructor
  · simp only [aggregate]
    split
    · rw [jsSubstring, length_mk, List.length_take]
      exact min_le_left _ _
    · omega
  · intro h20 h12
    subst h12
    have hgt : (joinSep "\n\n" texts).length > 12000 := by rw [h20]; norm_num
    have heq : aggregate texts 12000 = jsSubstring (joinSep "\n\n" texts) 12000 := by
      simp only [aggregate]
      rw [if_pos hgt]
    refine ⟨heq, ?_⟩
    rw [heq, jsSubstring, length_mk, List.length_take]
    have hdata : (joinSep "\n\n" texts).data.length = 20000 := h20
    rw [hdata]
    exact min_eq_left (by norm_num)

/-- Witness for C3 at a concrete 20000-character corpus and budget 12000. -/
theorem c3_aggregate_within_budget_witness :
    (aggregate demoTexts 12000).length ≤ 12000 ∧
    (aggregate demoTexts 12000 = jsSubstring (joinSep "\n\n" demoTexts) 12000 ∧
     (aggregate demoTexts 12000).length = 12000) :=
  ⟨(c3_aggregate_within_budget demoTexts 12000).1,
   (c3_aggregate_within_budget demoTexts 12000).2
     (by
       have h1 : joinSep "\n\n" demoTexts = String.mk (List.replicate 20000 'a') := rfl
       rw [h1, length_mk, List.length_replicate]) rfl⟩

/-- Claim C8: the progress values emitted during one run form a monotonically
non-decreasing sequence that follows the fixed schedule (the full schedule
0/10/25/40/60/75/85/95/100 on success, its zero-yield failure stop
otherwise); only the explicit `resetGeneration` sets progress back to 0. -/
theorem c8_progress_monotone (inp : RunInput) (o : Oracle) :
    List.Chain' (· ≤ ·) (generateDataset inp o).progressTrace ∧
    ((generateDataset inp o).progressTrace = [0, 10, 25, 40, 60] ∨
     (generateDataset inp o).progressTrace = [0, 10, 25, 40, 60, 75, 85, 95, 100]) ∧
    resetGeneration.progress = 0 := by
  refine ⟨?_, ?_, rfl⟩
  · rw [generateDataset]
    split <;> simp [List.chain'_cons]
  · rw [generateDataset]
    split
    · exact Or.inl rfl
    · exact Or.inr rfl

/-- Claim C9: a run started with zero files and zero urls never makes the
content-grounded generation call, and every non-distractor pair of the
resulting dataset carries `source = "synthetic"`. -/
theorem c9_empty_content_synthetic_only (inp : RunInput) (o : Oracle)
    (hf : inp.files = []) (hu : inp.urls = []) :
    (generateDataset inp o).groundedCalled = false ∧
    ∀ d, (generateDataset inp o).processedData = some d →
      ∀ p ∈ d.qaPairs, p.source ≠ "generated_distractor" → p.source = "synthetic" := by
  have hc : allContentOf inp = [] := by rw [allContentOf, hf, hu]; rfl
  constructor
  · rw [generateDataset]
    split <;> (show (!(allContentOf inp).isEmpty) = false; rw [hc]; rfl)
  · intro d hd p hp hnd
    obtain ⟨hq, _, _⟩ := generateDataset_some inp o d hd
    rw [hq] at hp
    rcases List.mem_append.mp hp with hv | hdz
    · obtain ⟨q, hq2, rfl⟩ := List.mem_map.mp hv
      obtain ⟨r, hr, hsrc, _, _⟩ := mem_annotatePairs_source _ _ _ _ hq2
      have hrs : r.source = "synthetic" := by
        rcases List.mem_append.mp hr with hg | hs
        · rw [groundedPairsOf, hc] at hg
          simp at hg
        · have := mem_generateQAPairs_source _ _ _ _ hs
          simpa using this
      have hqs : q.source = "synthetic" := hsrc.trans hrs
      rw [finalizePair_source_of_ne q (by rw [hqs]; decide), hqs]
    · obtain ⟨q, hq2, rfl⟩ := List.mem_map.mp hdz
      have hsrc := (mem_distractorPairs _ _ _ hq2).1
      have : (finalizePair q).source = "generated_distractor" := by
        rw [finalizePair_source_of_ne q (by rw [hsrc]; decide), hsrc]
      exact absurd this hnd

/-- Witness for C9: the zero-content sample run. -/
theorem c9_empty_content_synthetic_only_witness :
    (generateDataset emptyRunInput oracleSynOne).groundedCalled = false ∧
    ∀ d, (generateDataset emptyRunInput oracleSynOne).processedData = some d →
      ∀ p ∈ d.qaPairs, p.source ≠ "generated_distractor" → p.source = "synthetic" :=
  c9_empty_content_synthetic_only emptyRunInput oracleSynOne rfl rfl

/-- Claim C7: every pair of a produced dataset carries a non-empty `source`
tag, and `incorrectAnswerCount` equals the number of pairs whose source is
`"generated_distractor"`. -/
theorem c7_provenance_invariant (inp : RunInput) (o : Oracle) (d : ProcessedData)
    (hd : (generateDataset inp o).processedData = some d) :
    (∀ p ∈ d.qaPairs, p.source ≠ "") ∧
    d.incorrectAnswerCount =
      (d.qaPairs.filter (fun p => p.source == "generated_distractor")).length := by
  obtain ⟨hq, _, hic⟩ := generateDataset_some inp o d hd
  constructor
  · intro p hp
    rw [hq] at hp
    rcases List.mem_append.mp hp with h | h <;>
      · obtain ⟨q, _, rfl⟩ := List.mem_map.mp h
        exact finalizePair_source_ne q
  · rw [hq, hic, List.filter_append]
    have h1 : ((validatedPairsOf inp o).map finalizePair).filter
        (fun p => p.source == "generated_distractor") = [] := by
      refine List.filter_eq_nil_iff.mpr ?_
      intro p hp
      obtain ⟨q, hq2, rfl⟩ := List.mem_map.mp hp
      obtain ⟨r, hr, hsrc, _, _⟩ := mem_annotatePairs_source _ _ _ _ hq2
      rcases mem_allPairsOf_source inp o r hr with h | h <;>
        · have hqs := hsrc.trans h
          rw [finalizePair_source_of_ne q (by rw [hqs]; decide), hqs]
          decide
    have h2 : (((distractorCallOf inp o).pairs).map finalizePair).filter
        (fun p => p.source == "generated_distractor") =
        ((distractorCallOf inp o).pairs).map finalizePair := by
      refine List.filter_eq_self.mpr ?_
      intro p hp
      obtain ⟨q, hq2, rfl⟩ := List.mem_map.mp hp
      have hs := (mem_distractorPairs _ _ _ hq2).1
      rw [finalizePair_source_of_ne q (by rw [hs]; decide), hs]
      decide
    rw [h1, h2, List.nil_append, List.length_map]

/-- Witness for C7 on the concrete successful sample run. -/
theorem c7_provenance_invariant_witness :
    (∀ p ∈ sampleDataset.qaPairs, p.source ≠ "") ∧
    sampleDataset.incorrectAnswerCount =
      (sampleDataset.qaPairs.filter (fun p => p.source == "generated_distractor")).length :=
  c7_provenance_invariant emptyRunInput oracleSynOne sampleDataset rfl

/-- Claim C10: in every produced dataset, `correctAnswerCount` counts the
generation-stage (validated) pairs, `incorrectAnswerCount` counts the
distractor pairs, the pair list is exactly their concatenation, and therefore
the two counts sum to the total pair count. -/
theorem c10_counts_partition (inp : RunInput) (o : Oracle) (d : ProcessedData)
    (hd : (generateDataset inp o).processedData = some d) :
    d.correctAnswerCount + d.incorrectAnswerCount = d.qaPairs.length ∧
    d.correctAnswerCount = (validatedPairsOf inp o).length ∧
    d.incorrectAnswerCount = ((distractorCallOf inp o).pairs).length ∧
    d.qaPairs = (validatedPairsOf inp o).map finalizePair ++
      ((distractorCallOf inp o).pairs).map finalizePair := by
  obtain ⟨hq, hcc, hic⟩ := generateDataset_some inp o d hd
  refine ⟨?_, hcc, hic, hq⟩
  rw [hq, hcc, hic, List.length_append, List.length_map, List.length_map]

/-- Witness for C10 on the concrete successful sample run. -/
theorem c10_counts_partition_witness :
    sampleDataset.correctAnswerCount + sampleDataset.incorrectAnswerCount =
      sampleDataset.qaPairs.length ∧
    sampleDataset.correctAnswerCount =
      (validatedPairsOf emptyRunInput oracleSynOne).length ∧
    sampleDataset.incorrectAnswerCount =
      ((distractorCallOf emptyRunInput oracleSynOne).pairs).length ∧
    sampleDataset.qaPairs =
      (validatedPairsOf emptyRunInput oracleSynOne).map finalizePair ++
      ((distractorCallOf emptyRunInput oracleSynOne).pairs).map finalizePair :=
  c10_counts_partition emptyRunInput oracleSynOne sampleDataset rfl

/-- Counterexample to claim C1 as stated: when the judge response of a
sub-batch parses to an array shorter than the sub-batch (here: one input
pair, parsed array `[]`), the returned result list does NOT have the input length —
the success path maps over the parsed array, not over the sub-batch. -/
theorem c1_counterexample :
    (validateQAPairs [sampleCorrectPair] (fun _ => JudgeResp.parsed [])).length ≠
      ([sampleCorrectPair] : List PPair).length := by decide

/-- Claim C1 (amended): provided every successfully parsed sub-batch response
array has exactly the length of its sub-batch (sub-batch errors and parse failures
are unrestricted), the validator returns exactly one result per input pair,
and the result at position `i` carries the pair id of input pair `i`;
moreover the validation-annotation step never removes pairs from the
dataset. Without that length proviso the result count can deviate. -/
theorem c1_validator_alignment {α : Type} (pairs : List α) (resp : Nat → JudgeResp)
    (H : ∀ k rs, resp k = .parsed rs → rs.length = ((chunk5 pairs).getD k []).length) :
    (validateQAPairs pairs resp).length = pairs.length ∧
    (∀ j, j < pairs.length → ∃ vr, (validateQAPairs pairs resp)[j]? = some vr ∧
      vr.pairId = "pair-" ++ Nat.repr j) ∧
    (∀ (vrs : List ValidationResult) (qs : List PPair),
      (annotatePairs vrs qs 0).length = qs.length) := by
  have H0 : ∀ t rs, resp (0 + t) = .parsed rs →
      rs.length = ((chunk5 pairs).getD t []).length := by
    intro t rs h
    exact H t rs (by simpa using h)
  refine ⟨?_, ?_, fun vrs qs => annotatePairs_length vrs qs 0⟩
  · rw [validateQAPairs, runBatches_length resp (chunk5 pairs) 0 0 H0, chunk5_flatten]
  · intro j hj
    rw [validateQAPairs]
    obtain ⟨vr, hv, hid⟩ := runBatches_getElem resp (chunk5 pairs) 0 0 j H0
      (chunk5_inner_five pairs) (by rw [chunk5_flatten]; exact hj)
    exact ⟨vr, hv, by simpa using hid⟩

/-- Witness for the amended C1: two concrete pairs, single judge call parsing
to exactly two records. -/
theorem c1_validator_alignment_witness :
    (validateQAPairs [sampleCorrectPair, sampleCorrectPair] judgeRespTwo).length =
      ([sampleCorrectPair, sampleCorrectPair] : List PPair).length ∧
    (∀ j, j < ([sampleCorrectPair, sampleCorrectPair] : List PPair).length →
      ∃ vr, (validateQAPairs [sampleCorrectPair, sampleCorrectPair] judgeRespTwo)[j]? = some vr ∧
        vr.pairId = "pair-" ++ Nat.repr j) ∧
    (∀ (vrs : List ValidationResult) (qs : List PPair),
      (annotatePairs vrs qs 0).length = qs.length) :=
  c1_validator_alignment [sampleCorrectPair, sampleCorrectPair] judgeRespTwo
    (by
      intro k rs h
      match k with
      | 0 =>
        simp only [judgeRespTwo, if_pos] at h
        injection h with h2
        subst h2
        decide
      | k + 1 => simp [judgeRespTwo] at h)

/-- Claim C4: with input `a ++ b` (`a` of length 5, `b` a nonempty final
sub-batch), a first sub-batch whose response parses to exactly 5 judgments
and a second sub-batch whose call errors or fails to parse, the first five
results are precisely the judged values while every result of the failed
sub-batch is the default `isValid = true`, `confidence = 0.5`, with the
correct absolute pair id. -/
theorem c4_failed_subbatch_defaults (a b : List PPair) (rs : List RawJudgment)
    (resp : Nat → JudgeResp) (ha : a.length = 5) (hb0 : b ≠ []) (hb5 : b.length ≤ 5)
    (h0 : resp 0 = .parsed rs) (hrs : rs.length = 5)
    (h1 : resp 1 = .err ∨ resp 1 = .noMatch) :
    (validateQAPairs (a ++ b) resp).take 5 = judgedFor rs 0 ∧
    (validateQAPairs (a ++ b) resp).length = 5 + b.length ∧
    (∀ j, j < b.length → ∃ vr, (validateQAPairs (a ++ b) resp)[5 + j]? = some vr ∧
      vr.isValid = true ∧ vr.confidence = 1/2 ∧
      vr.pairId = "pair-" ++ Nat.repr (5 + j)) := by
  have hchunks : chunk5 (a ++ b) = [a, b] := by
    rw [chunk5_append5 a b ha, chunk5_short b hb0 hb5]
  have hrun : validateQAPairs (a ++ b) resp =
      judgedFor rs 0 ++ handleBatch b (resp 1) 5 := by
    rw [validateQAPairs, hchunks]
    simp only [runBatches, List.append_nil, h0, handleBatch]
  have hlen5 : (judgedFor rs 0).length = 5 := by rw [judgedFor_length]; exact hrs
  refine ⟨?_, ?_, ?_⟩
  · rw [hrun]
    exact List.take_left' hlen5
  · rw [hrun, List.length_append, hlen5]
    rcases h1 with h | h <;> rw [h] <;> simp [handleBatch, fallbackFor_length]
  · intro j hj
    rw [hrun, List.getElem?_append_right (by omega : (judgedFor rs 0).length ≤ 5 + j)]
    have hidx : 5 + j - (judgedFor rs 0).length = j := by rw [hlen5]; omega
    rw [hidx]
    rcases h1 with h | h
    · rw [h]
      refine ⟨mkFallback (5 + j) "Validation error", ?_, rfl, rfl, rfl⟩
      simp only [handleBatch]
      rw [fallbackFor_getElem, List.getElem?_eq_getElem hj]
      rfl
    · rw [h]
      refine ⟨mkFallback (5 + j) "Validation parsing failed", ?_, rfl, rfl, rfl⟩
      simp only [handleBatch]
      rw [fallbackFor_getElem, List.getElem?_eq_getElem hj]
      rfl

/-- Witness for C4: seven concrete pairs split 5 + 2, first call parses to
five judgments, second call errors; pairs 5 and 6 get defaults. -/
theorem c4_failed_subbatch_defaults_witness :
    (validateQAPairs (List.replicate 5 sampleCorrectPair ++ List.replicate 2 sampleCorrectPair)
        judgeRespFirstThenErr).take 5 = judgedFor sampleJudgments5 0 ∧
    (validateQAPairs (List.replicate 5 sampleCorrectPair ++ List.replicate 2 sampleCorrectPair)
        judgeRespFirstThenErr).length = 5 + (List.replicate 2 sampleCorrectPair).length ∧
    (∀ j, j < (List.replicate 2 sampleCorrectPair).length →
      ∃ vr, (validateQAPairs (List.replicate 5 sampleCorrectPair ++
          List.replicate 2 sampleCorrectPair) judgeRespFirstThenErr)[5 + j]? = some vr ∧
        vr.isValid = true ∧ vr.confidence = 1/2 ∧
        vr.pairId = "pair-" ++ Nat.repr (5 + j)) :=
  c4_failed_subbatch_defaults (List.replicate 5 sampleCorrectPair)
    (List.replicate 2 sampleCorrectPair) sampleJudgments5 judgeRespFirstThenErr
    (by decide) (by decide) (by decide) rfl (by decide) (Or.inl rfl)

/-- Counterexample to claim C5 as stated: a parsed pair with neither keying
present is NOT dropped — it stays in the returned list with both canonical
fields undefined. -/
theorem c5_counterexample :
    (generateQAPairs [] [] (.arr [blankRawGenPair])).length = 1 ∧
    ((generateQAPairs [] [] (.arr [blankRawGenPair])).getD 0 emptyPPair).question = none ∧
    ((generateQAPairs [] [] (.arr [blankRawGenPair])).getD 0 emptyPPair).answer = none := by
  decide

/-- Claim C5 (amended): parsing normalizes both the `question`/`answer` and
the `user`/`model` keyings into the canonical fields and never fails the
call, but it keeps exactly one output pair per parsed record — a record
missing a field is retained with that canonical field absent, not dropped. -/
theorem c5_normalization (content : List ContentItem) (themes : List String) :
    (∀ ps : List RawGenPair, (generateQAPairs content themes (.arr ps)).length = ps.length) ∧
    (∀ q a : String, q ≠ "" → a ≠ "" →
      ∃ p, (generateQAPairs content themes
          (.arr [{ user := some q, model := some a, question := none, answer := none }]))[0]? =
            some p ∧
        p.question = some q ∧ p.answer = some a) ∧
    (∀ q a : String,
      ∃ p, (generateQAPairs content themes
          (.arr [{ user := none, model := none, question := some q, answer := some a }]))[0]? =
            some p ∧
        p.question = some q ∧ p.answer = some a) ∧
    (∃ p, (generateQAPairs content themes (.arr [blankRawGenPair]))[0]? = some p ∧
      p.question = none ∧ p.answer = none) := by
  refine ⟨fun ps => by simp [generateQAPairs], ?_, ?_, ?_⟩
  · intro q a hq ha
    refine ⟨normalizeGenPair content
      { user := some q, model := some a, question := none, answer := none }, rfl, ?_, ?_⟩ <;>
      simp [normalizeGenPair, jsOrOpt, hq, ha]
  · intro q a
    exact ⟨_, rfl, rfl, rfl⟩
  · exact ⟨_, rfl, rfl, rfl⟩

/-- Witness for the amended C5: a concrete provider-keyed record. -/
theorem c5_normalization_witness :
    ∃ p, (generateQAPairs [] []
        (.arr [{ user := some "Q", model := some "A", question := none, answer := none }]))[0]? =
          some p ∧
      p.question = some "Q" ∧ p.answer = some "A" :=
  (c5_normalization [] []).2.1 "Q" "A" (by decide) (by decide)

/-- Counterexample to claim C6 as stated: the output question of a distractor
is whatever the `original_question` field of the model response says, which
need not equal the question text of any input pair. -/
theorem c6_counterexample :
    ((generateIncorrectAnswers [sampleCorrectPair]
        (.arr [{ original_question := some "BOGUS", incorrect_answer := some "5" }])).pairs.getD 0
          emptyPPair).question = some "BOGUS" ∧
    some "BOGUS" ∉ [sampleCorrectPair].map PPair.question := by
  decide

/-- Claim C6 (amended): on empty input the distractor stage returns an empty
list with no inference call and no error; on non-empty input it calls with
only the leading at-most-5 pairs; every output pair is tagged
`source = "generated_distractor"` with `isCorrect = false`; and the output
question/answer texts come from the parsed response fields `original_question` /
`incorrect_answer` fields (so equality with an input question is not
guaranteed). -/
theorem c6_distractor_behavior (resp : ParseOutcome RawDistractor) :
    generateIncorrectAnswers [] resp =
      { called := false, promptPairs := [], pairs := [] } ∧
    (∀ ps : List PPair, ps ≠ [] →
      (generateIncorrectAnswers ps resp).called = true ∧
      (generateIncorrectAnswers ps resp).promptPairs = ps.take 5 ∧
      (generateIncorrectAnswers ps resp).promptPairs.length ≤ 5) ∧
    (∀ (ps : List PPair) (p : PPair), p ∈ (generateIncorrectAnswers ps resp).pairs →
      p.source = "generated_distractor" ∧ p.isCorrect = false) ∧
    (∀ (ps : List PPair) (rs : List RawDistractor) (j : Nat), ps ≠ [] → j < rs.length →
      ∃ p, ((generateIncorrectAnswers ps (.arr rs)).pairs)[j]? = some p ∧
        p.question = (rs.getD j { original_question := none, incorrect_answer := none
          }).original_question ∧
        p.answer = (rs.getD j { original_question := none, incorrect_answer := none
          }).incorrect_answer) := by
  refine ⟨rfl, ?_, fun ps p hp => mem_distractorPairs ps resp p hp, ?_⟩
  · intro ps hps
    have hlen : ¬ ps.length = 0 := fun h => hps (List.length_eq_zero.mp h)
    rw [generateIncorrectAnswers, if_neg hlen]
    match resp with
    | .err =>
      refine ⟨rfl, rfl, ?_⟩
      rw [List.length_take]
      exact min_le_left _ _
    | .nonArray =>
      refine ⟨rfl, rfl, ?_⟩
      rw [List.length_take]
      exact min_le_left _ _
    | .arr rs =>
      refine ⟨rfl, rfl, ?_⟩
      rw [List.length_take]
      exact min_le_left _ _
  · intro ps rs j hps hj
    have hlen : ¬ ps.length = 0 := fun h => hps (List.length_eq_zero.mp h)
    rw [generateIncorrectAnswers, if_neg hlen]
    refine ⟨mkDistractor rs[j], ?_, ?_, ?_⟩
    · show (rs.map mkDistractor)[j]? = _
      rw [List.getElem?_map, List.getElem?_eq_getElem hj]
      rfl
    · rw [List.getD_eq_getElem _ _ hj]
      rfl
    · rw [List.getD_eq_getElem _ _ hj]
      rfl

/-- Witness for the amended C6: the non-empty-input and response-field
conjuncts at concrete inputs. -/
theorem c6_distractor_behavior_witness :
    ((generateIncorrectAnswers [sampleCorrectPair] ParseOutcome.err).called = true ∧
     (generateIncorrectAnswers [sampleCorrectPair] ParseOutcome.err).promptPairs =
       [sampleCorrectPair].take 5 ∧
     (generateIncorrectAnswers [sampleCorrectPair] ParseOutcome.err).promptPairs.length ≤ 5) ∧
    (∃ p, ((generateIncorrectAnswers [sampleCorrectPair]
        (.arr [{ original_question := some "OQ", incorrect_answer := some "IA" }])).pairs)[0]? =
          some p ∧
      p.question = ([({ original_question := some "OQ", incorrect_answer := some "IA" } :
          RawDistractor)].getD 0 { original_question := none, incorrect_answer := none
        }).original_question ∧
      p.answer = ([({ original_question := some "OQ", incorrect_answer := some "IA" } :
          RawDistractor)].getD 0 { original_question := none, incorrect_answer := none
        }).incorrect_answer) :=
  ⟨(c6_distractor_behavior ParseOutcome.err).2.1 [sampleCorrectPair] (by decide),
   (c6_distractor_behavior ParseOutcome.err).2.2.2 [sampleCorrectPair]
     [{ original_question := some "OQ", incorrect_answer := some "IA" }] 0
     (by decide) (by decide)⟩

end FineFormat
